import Mathlib

/-!
Shallow embedding of the remote-config synchronization core of the iLogtail
ConfigManager (src/core/config_manager/ConfigManagerBase.h and the embedded
ConfigManager implementation unit).

The embedded pieces are:
* the protobuf data model used by the config-server protocol
  (ConfigCheckResult, ConfigDetail, the heartbeat / fetch responses);
* ConfigManager::UpdateRemoteConfig, modelled as the list of file operations
  (writes / removes) the loop performs, in order, so that both the final
  on-disk state and the ordering of operations within one apply are visible;
* ConfigManager::SendHeartbeat and ConfigManager::FetchPipelineConfig,
  modelled as functions of the transport's behaviour that return both the
  parsed result and the trace of client actions (sign / send / flush)
  the function performed;
* the fetch decision of ConfigManager::CheckUpdateThread and the
  update-state handshake (IsUpdate / StartUpdateConfig);
* ConfigManager::UpdateAccessKey and the DoubleBuffer template.
-/

namespace Ilogtail

/-- Check status of one config in a heartbeat response
(configserver::proto: NEW / MODIFIED / DELETED / UNCHANGED). -/
inductive CheckStatus
  | NEW
  | MODIFIED
  | DELETED
  | UNCHANGED
deriving DecidableEq, Repr

/-- One entry of HeartBeatResponse::pipeline_check_results
(configserver::proto::ConfigCheckResult). -/
structure ConfigCheckResult where
  name : String
  check_status : CheckStatus
  old_version : Int
  new_version : Int
deriving DecidableEq, Repr

/-- One entry of FetchPipelineConfigResponse::config_details
(configserver::proto::ConfigDetail).  A default-constructed protobuf message
has empty string fields. -/
structure ConfigDetail where
  name : String
  detail : String
deriving DecidableEq, Repr

/-- Default-constructed ConfigDetail, as produced by the C++ declaration
`configserver::proto::ConfigDetail configDetail;` before the loop. -/
def ConfigDetail.protoDefault : ConfigDetail := ⟨"", ""⟩

/-- A single file operation performed by UpdateRemoteConfig:
`newConfig.open(path); newConfig << content; newConfig.close()` becomes
`write path content`, and `remove(path.c_str())` becomes `remove path`
(the C++ `remove` ignores its return value, so removing an absent file
is a silent no-op). -/
inductive FileOp
  | write (path : String) (content : String)
  | remove (path : String)
deriving DecidableEq, Repr

/-- oldConfigPath of iteration i:
`serverConfigDirPath + configName + "@" + to_string(old_version()) + ".yaml"`. -/
def oldConfigPath (dir : String) (r : ConfigCheckResult) : String :=
  dir ++ r.name ++ "@" ++ toString r.old_version ++ ".yaml"

/-- newConfigPath of iteration i:
`serverConfigDirPath + configName + "@" + to_string(new_version()) + ".yaml"`. -/
def newConfigPath (dir : String) (r : ConfigCheckResult) : String :=
  dir ++ r.name ++ "@" ++ toString r.new_version ++ ".yaml"

/-- The inner `for (j...) if (configDetails[j].name() == configName)
{ configDetail = configDetails[j]; break; }` loop: first entry whose name
matches, otherwise the variable keeps its current value `cur`. -/
def findDetail (details : List ConfigDetail) (nm : String) (cur : ConfigDetail) : ConfigDetail :=
  match details with
  | [] => cur
  | d :: rest => if d.name = nm then d else findDetail rest nm cur

/-- The file operations of one iteration of the UpdateRemoteConfig loop,
given the value `cur` the `configDetail` variable holds at the switch:
DELETED removes the old file; MODIFIED removes the old file and then writes
the new one; NEW writes the new one; UNCHANGED does nothing. -/
def checkResultOps (dir : String) (r : ConfigCheckResult) (cur : ConfigDetail) : List FileOp :=
  match r.check_status with
  | CheckStatus.DELETED => [FileOp.remove (oldConfigPath dir r)]
  | CheckStatus.MODIFIED =>
      [FileOp.remove (oldConfigPath dir r), FileOp.write (newConfigPath dir r) cur.detail]
  | CheckStatus.NEW => [FileOp.write (newConfigPath dir r) cur.detail]
  | CheckStatus.UNCHANGED => []

/-- The loop of ConfigManager::UpdateRemoteConfig.  `cur` is the value of the
`configDetail` variable, which the C++ declares OUTSIDE the loop: it is looked
up for every non-DELETED result and otherwise keeps its value from the
previous iteration. -/
def updateRemoteConfigLoop (dir : String) (details : List ConfigDetail) :
    List ConfigCheckResult → ConfigDetail → List FileOp
  | [], _ => []
  | r :: rest, cur =>
    let cur2 := if r.check_status = CheckStatus.DELETED then cur else findDetail details r.name cur
    checkResultOps dir r cur2 ++ updateRemoteConfigLoop dir details rest cur2

/-- ConfigManager::UpdateRemoteConfig, as the ordered list of file operations
it performs (the directory-creation preamble is elided: it does not touch
version files).  `configDetail` starts default-constructed. -/
def UpdateRemoteConfig (dir : String) (checkResults : List ConfigCheckResult)
    (configDetails : List ConfigDetail) : List FileOp :=
  updateRemoteConfigLoop dir configDetails checkResults ConfigDetail.protoDefault

/-- A flat model of the config directory: an association list from path to
file content, newest entry last. -/
abbrev FileSys : Type := List (String × String)

/-- Effect of `remove(p)` on the directory model: the entry for `p` is gone;
if it was absent nothing changes and no error is reported. -/
def fsRemove (fs : FileSys) (p : String) : FileSys :=
  fs.filter (fun e => e.1 != p)

/-- Effect of `ofstream(p) << c` on the directory model: the file at `p` now
holds exactly `c`. -/
def fsWrite (fs : FileSys) (p c : String) : FileSys :=
  fsRemove fs p ++ [(p, c)]

/-- Run one file operation against the directory model. -/
def runOp (fs : FileSys) (op : FileOp) : FileSys :=
  match op with
  | FileOp.write p c => fsWrite fs p c
  | FileOp.remove p => fsRemove fs p

/-- Run a list of file operations, in order, against the directory model. -/
def runOps (fs : FileSys) (ops : List FileOp) : FileSys :=
  ops.foldl runOp fs

/-- Operation `a` occurs strictly before operation `b` somewhere in the
trace `ops`. -/
def opBefore (ops : List FileOp) (a b : FileOp) : Prop :=
  ∃ i : Fin ops.length, ∃ j : Fin ops.length, (i : ℕ) < (j : ℕ) ∧ ops.get i = a ∧ ops.get j = b

instance (ops : List FileOp) (a b : FileOp) : Decidable (opBefore ops a b) := by
  unfold opBefore
  infer_instance

/-- An observable action of the config-service client during one heartbeat or
fetch call: `sign` is a SignHeader call, `send` is a CurlClient::Send, and
`flush` is a FlushCredential call. -/
inductive Action
  | sign
  | send
  | flush
deriving DecidableEq, Repr

/-- The parsed heartbeat response, together with the HTTP status code of the
exchange that produced it.  Parsing the HTTP body into the protobuf message is
folded into the record: a body that fails to parse yields the
default-constructed message, whose request_id is the empty string. -/
structure HeartBeatResponse where
  statusCode : Int
  request_id : String
  pipeline_check_results : List ConfigCheckResult
deriving DecidableEq, Repr

/-- Behaviour of the transport during one SendHeartbeat call: the outcome of
the first CurlClient::Send (`none` means it threw a LOGException), whether a
FlushCredential call would succeed, and the outcome of the retry Send should
one happen. -/
structure HeartbeatTransport where
  first : Option HeartBeatResponse
  flushOk : Bool
  second : Option HeartBeatResponse
deriving Repr

/-- The status-code test of SendHeartbeat:
`statusCode == 400 || statusCode == 401 || statusCode == 403`. -/
def isAuthFailureStatus (s : Int) : Bool :=
  s == 400 || s == 401 || s == 403

/-- ConfigManager::SendHeartbeat, as a function of the caller-generated
request id and the transport behaviour.  Returns the
pipeline_check_results it hands back (`emptyResult` becomes `[]`) paired with
the trace of client actions performed.  The control flow follows the source:
sign and send; on status 400/401/403 flush the credential (abort on failure),
re-sign and re-send (abort if the retry throws); then parse whichever response
is current and discard it when its request_id differs from the request's. -/
def SendHeartbeat (requestId : String) (t : HeartbeatTransport) :
    List ConfigCheckResult × List Action :=
  match t.first with
  | none => ([], [Action.sign, Action.send])
  | some resp =>
    if isAuthFailureStatus resp.statusCode then
      if t.flushOk then
        match t.second with
        | none => ([], [Action.sign, Action.send, Action.flush, Action.sign, Action.send])
        | some resp2 =>
          if resp2.request_id ≠ requestId then
            ([], [Action.sign, Action.send, Action.flush, Action.sign, Action.send])
          else
            (resp2.pipeline_check_results,
             [Action.sign, Action.send, Action.flush, Action.sign, Action.send])
      else ([], [Action.sign, Action.send, Action.flush])
    else
      if resp.request_id ≠ requestId then ([], [Action.sign, Action.send])
      else (resp.pipeline_check_results, [Action.sign, Action.send])

/-- The parsed fetch response, with the HTTP status code of the exchange. -/
structure FetchPipelineConfigResponse where
  statusCode : Int
  request_id : String
  config_details : List ConfigDetail
deriving DecidableEq, Repr

/-- Behaviour of the transport during one FetchPipelineConfig call: the
outcome of the single CurlClient::Send (`none` means it threw), plus the same
credential fields as the heartbeat transport so that the two calls can be
compared against the same environment. -/
structure FetchTransport where
  first : Option FetchPipelineConfigResponse
  flushOk : Bool
  second : Option FetchPipelineConfigResponse
deriving Repr

/-- The (name, new_version) pairs FetchPipelineConfig puts into the
FetchPipelineConfigRequest: one ConfigInfo per check result whose
check_status is not DELETED. -/
def fetchRequestedConfigs (requestConfigs : List ConfigCheckResult) : List (String × Int) :=
  (requestConfigs.filter (fun r => r.check_status != CheckStatus.DELETED)).map
    (fun r => (r.name, r.new_version))

/-- ConfigManager::FetchPipelineConfig, as a function of the caller-generated
request id and the transport behaviour, returning the config_details it hands
back paired with the trace of client actions.  The source performs exactly one
unsigned Send, never inspects the HTTP status code, never calls
FlushCredential or SignHeader, and discards the response on request_id
mismatch. -/
def FetchPipelineConfig (requestId : String) (_requestConfigs : List ConfigCheckResult)
    (t : FetchTransport) : List ConfigDetail × List Action :=
  match t.first with
  | none => ([], [Action.send])
  | some resp =>
    if resp.request_id ≠ requestId then ([], [Action.send])
    else (resp.config_details, [Action.send])

/-- The fetch decision of ConfigManager::CheckUpdateThread:
`if (checkResults.size() > 0)` FetchPipelineConfig is called. -/
def fetchPerformed (checkResults : List ConfigCheckResult) : Bool :=
  decide (0 < checkResults.length)

/-- The update handshake state (CheckUpdateStat of mUpdateStat). -/
inductive CheckUpdateStat
  | NORMAL
  | UPDATE_CONFIG
deriving DecidableEq, Repr

/-- ConfigManagerBase::IsUpdate: `mUpdateStat != NORMAL`. -/
def IsUpdate (s : CheckUpdateStat) : Bool :=
  s != CheckUpdateStat.NORMAL

/-- ConfigManagerBase::StartUpdateConfig: sets `mUpdateStat = UPDATE_CONFIG`. -/
def StartUpdateConfig (_s : CheckUpdateStat) : CheckUpdateStat :=
  CheckUpdateStat.UPDATE_CONFIG

/-- ConfigManagerBase::FinishUpdateConfig: sets `mUpdateStat = NORMAL`
(run by the consumer after draining a batch). -/
def FinishUpdateConfig (_s : CheckUpdateStat) : CheckUpdateStat :=
  CheckUpdateStat.NORMAL

/-- The local-config publication step of one CheckUpdateThread cycle:
`if (!IsUpdate() && GetLocalConfigUpdate()) StartUpdateConfig();`.
`localConfigUpdate` is the value GetLocalConfigUpdate() would return; the
result pairs the new state with whether StartUpdateConfig was called
(a batch was published) in this cycle. -/
def checkUpdateCycle (s : CheckUpdateStat) (localConfigUpdate : Bool) :
    CheckUpdateStat × Bool :=
  if !(IsUpdate s) && localConfigUpdate then (StartUpdateConfig s, true) else (s, false)

/-- Modelled from the spec: `SetUserAK` (its body is outside the embedded
sources) updates the account's credential record; per the specification the
record's lastUpdateTime is stamped with the current time when the record is
refreshed. -/
def SetUserAK (now : Int) (_last : Int) : Int := now

/-- ConfigManager::UpdateAccessKey, over an account whose stored
lastUpdateTime (the value GetUserAK reports) is `last`:
`if ((time(NULL) - lastUpdateTime) < INT32_FLAG(request_access_key_interval))
return false;` and otherwise SetUserAK runs and the call returns true.
The result pairs the returned flag with the account's lastUpdateTime after
the call. -/
def UpdateAccessKey (now last interval : Int) : Bool × Int :=
  if now - last < interval then (false, last) else (true, SetUserAK now last)

/-- The DoubleBuffer template.  `buffers` stands for the two-slot array
`T buffers[2]` as a map from slot index to contents, and `currentBuffer` is
the `int` member.  The default constructor sets `currentBuffer = 0`. -/
structure DoubleBuffer (T : Type) where
  buffers : Int → T
  currentBuffer : Int

/-- Slot index read by getWriteBuffer: `buffers[currentBuffer]`. -/
def DoubleBuffer.writeIndex {T : Type} (b : DoubleBuffer T) : Int :=
  b.currentBuffer

/-- Slot index read by getReadBuffer: `buffers[1 - currentBuffer]`. -/
def DoubleBuffer.readIndex {T : Type} (b : DoubleBuffer T) : Int :=
  1 - b.currentBuffer

/-- DoubleBuffer::getWriteBuffer. -/
def DoubleBuffer.getWriteBuffer {T : Type} (b : DoubleBuffer T) : T :=
  b.buffers b.writeIndex

/-- DoubleBuffer::getReadBuffer. -/
def DoubleBuffer.getReadBuffer {T : Type} (b : DoubleBuffer T) : T :=
  b.buffers b.readIndex

/-- DoubleBuffer::swap: `currentBuffer = 1 - currentBuffer`. -/
def DoubleBuffer.swap {T : Type} (b : DoubleBuffer T) : DoubleBuffer T :=
  { b with currentBuffer := 1 - b.currentBuffer }

/-- A DoubleBuffer state is well formed when its index lies in the two-slot
array; the default constructor establishes this and `swap` preserves it. -/
def DoubleBuffer.wf {T : Type} (b : DoubleBuffer T) : Prop :=
  b.currentBuffer = 0 ∨ b.currentBuffer = 1

/-- DoubleBuffer() default constructor around given array contents. -/
def DoubleBuffer.mkDefault {T : Type} (bufs : Int → T) : DoubleBuffer T :=
  ⟨bufs, 0⟩

/-! Claim theorems. -/

/-- C1 counterexample: at the concrete MODIFIED result (name "a", old
version 1, new version 2) with detail "da" fetched, UpdateRemoteConfig
performs the remove of a@1.yaml and only then the write of a@2.yaml: the
write does NOT precede the remove, contradicting the claimed
write-before-delete ordering. -/
theorem c1_modified_write_before_delete_counterexample :
    UpdateRemoteConfig "" [⟨"a", CheckStatus.MODIFIED, 1, 2⟩] [⟨"a", "da"⟩] =
      [FileOp.remove "a@1.yaml", FileOp.write "a@2.yaml" "da"]
    ∧ ¬ opBefore (UpdateRemoteConfig "" [⟨"a", CheckStatus.MODIFIED, 1, 2⟩] [⟨"a", "da"⟩])
        (FileOp.write "a@2.yaml" "da") (FileOp.remove "a@1.yaml")
    ∧ opBefore (UpdateRemoteConfig "" [⟨"a", CheckStatus.MODIFIED, 1, 2⟩] [⟨"a", "da"⟩])
        (FileOp.remove "a@1.yaml") (FileOp.write "a@2.yaml" "da") := by decide

/-- C1 (amended): for every apply of a MODIFIED check result the protocol
removes the name@old_version file FIRST and only then writes the
name@new_version file; consequently, interrupting the process between the two
steps (after only the first of the two operations has run) can leave ZERO
valid version files for that name on disk. -/
theorem c1_amended_modified_delete_before_write (dir : String) (details : List ConfigDetail)
    (r : ConfigCheckResult) (c : String) (h : r.check_status = CheckStatus.MODIFIED) :
    UpdateRemoteConfig dir [r] details =
      [FileOp.remove (oldConfigPath dir r),
       FileOp.write (newConfigPath dir r)
         ((findDetail details r.name ConfigDetail.protoDefault).detail)]
    ∧ runOps [(oldConfigPath dir r, c)] ((UpdateRemoteConfig dir [r] details).take 1) = [] := by
  have htrace : UpdateRemoteConfig dir [r] details =
      [FileOp.remove (oldConfigPath dir r),
       FileOp.write (newConfigPath dir r)
         ((findDetail details r.name ConfigDetail.protoDefault).detail)] := by
    simp [UpdateRemoteConfig, updateRemoteConfigLoop, checkResultOps, h]
  refine ⟨htrace, ?_⟩
  rw [htrace]
  simp [runOps, runOp, fsRemove]

/-- C1 witness: the amended theorem instantiated at the concrete MODIFIED
result used in the counterexample, starting from a directory holding only the
old version file. -/
theorem c1_amended_modified_delete_before_write_witness :
    (UpdateRemoteConfig "" [⟨"a", CheckStatus.MODIFIED, 1, 2⟩] [⟨"a", "da"⟩] =
      [FileOp.remove (oldConfigPath "" ⟨"a", CheckStatus.MODIFIED, 1, 2⟩),
       FileOp.write (newConfigPath "" ⟨"a", CheckStatus.MODIFIED, 1, 2⟩)
         ((findDetail [⟨"a", "da"⟩] "a" ConfigDetail.protoDefault).detail)])
    ∧ runOps [(oldConfigPath "" ⟨"a", CheckStatus.MODIFIED, 1, 2⟩, "old")]
        ((UpdateRemoteConfig "" [⟨"a", CheckStatus.MODIFIED, 1, 2⟩] [⟨"a", "da"⟩]).take 1) = [] :=
  c1_amended_modified_delete_before_write "" [⟨"a", "da"⟩] ⟨"a", CheckStatus.MODIFIED, 1, 2⟩
    "old" rfl

/-- C2 counterexample: a stored-version map that already records version 2
for config "a", and a MODIFIED check result requesting exactly new_version 2.
The claim says the apply step is then a no-op; UpdateRemoteConfig nevertheless
removes the old file and writes the new one — it never consults the stored
versions at all. -/
theorem c2_modified_idempotence_guard_counterexample :
    ([("a", (2 : Int))].lookup "a" = some (2 : Int))
    ∧ UpdateRemoteConfig "" [⟨"a", CheckStatus.MODIFIED, 1, 2⟩] [⟨"a", "da"⟩] ≠ []
    ∧ UpdateRemoteConfig "" [⟨"a", CheckStatus.MODIFIED, 1, 2⟩] [⟨"a", "da"⟩] =
        [FileOp.remove "a@1.yaml", FileOp.write "a@2.yaml" "da"] := by decide

/-- C2 (amended): the apply of a MODIFIED check result is unconditional:
whatever version the stored-version map holds for the name — even when it
already equals the requested new_version — UpdateRemoteConfig removes the
old version file and writes the new one; there is no idempotence guard. -/
theorem c2_amended_modified_apply_unconditional (vm : List (String × Int)) (dir : String)
    (details : List ConfigDetail) (r : ConfigCheckResult)
    (h : r.check_status = CheckStatus.MODIFIED)
    (hv : vm.lookup r.name = some r.new_version) :
    UpdateRemoteConfig dir [r] details =
      [FileOp.remove (oldConfigPath dir r),
       FileOp.write (newConfigPath dir r)
         ((findDetail details r.name ConfigDetail.protoDefault).detail)] := by
  simp [UpdateRemoteConfig, updateRemoteConfigLoop, checkResultOps, h]

/-- C2 witness: the amended theorem instantiated with stored version 2 for
"a" and a MODIFIED result whose new_version is that same 2. -/
theorem c2_amended_modified_apply_unconditional_witness :
    UpdateRemoteConfig "" [⟨"a", CheckStatus.MODIFIED, 1, 2⟩] [⟨"a", "da"⟩] =
      [FileOp.remove (oldConfigPath "" ⟨"a", CheckStatus.MODIFIED, 1, 2⟩),
       FileOp.write (newConfigPath "" ⟨"a", CheckStatus.MODIFIED, 1, 2⟩)
         ((findDetail [⟨"a", "da"⟩] "a" ConfigDetail.protoDefault).detail)] :=
  c2_amended_modified_apply_unconditional [("a", (2 : Int))] "" [⟨"a", "da"⟩]
    ⟨"a", CheckStatus.MODIFIED, 1, 2⟩ rfl (by decide)

/-- C3 counterexample: a fetch exchange whose single send returns HTTP 401,
in an environment where a credential refresh would succeed and a retry would
return a clean response.  The claim requires exactly one FlushCredential and
one retry; FetchPipelineConfig performs zero FlushCredential calls and only
one send, and even hands back the parsed body of the 401 response. -/
theorem c3_fetch_auth_retry_counterexample :
    FetchPipelineConfig "rid" []
        ⟨some ⟨401, "rid", [⟨"a", "da"⟩]⟩, true, some ⟨200, "rid", []⟩⟩
      = ([⟨"a", "da"⟩], [Action.send])
    ∧ (FetchPipelineConfig "rid" []
        ⟨some ⟨401, "rid", [⟨"a", "da"⟩]⟩, true, some ⟨200, "rid", []⟩⟩).2.count Action.flush
      = 0 := by decide

/-- C3 (amended): only the heartbeat performs the auth cycle.  On an HTTP
400/401/403 first response, SendHeartbeat performs exactly one FlushCredential;
if the refresh fails it returns the empty result after sign-send-flush; if the
refresh succeeds it performs exactly one re-sign and one retry send (and
returns the empty result when the retry throws).  FetchPipelineConfig performs
no credential refresh whatsoever and exactly one send, regardless of status. -/
theorem c3_amended_auth_retry_heartbeat_only :
    (∀ (requestId : String) (t : HeartbeatTransport) (resp : HeartBeatResponse),
       t.first = some resp → isAuthFailureStatus resp.statusCode = true →
         ((SendHeartbeat requestId t).2.count Action.flush = 1
          ∧ (t.flushOk = false →
              SendHeartbeat requestId t = ([], [Action.sign, Action.send, Action.flush]))
          ∧ (t.flushOk = true →
              (SendHeartbeat requestId t).2
                = [Action.sign, Action.send, Action.flush, Action.sign, Action.send])
          ∧ (t.flushOk = true → t.second = none → (SendHeartbeat requestId t).1 = [])))
    ∧ (∀ (requestId : String) (reqs : List ConfigCheckResult) (t : FetchTransport),
         (FetchPipelineConfig requestId reqs t).2.count Action.flush = 0
         ∧ (FetchPipelineConfig requestId reqs t).2.count Action.send = 1) := by
  constructor
  · intro requestId t resp h1 h2
    obtain ⟨f, fl, s⟩ := t
    cases f with
    | none => exact absurd h1 (by simp)
    | some resp0 =>
      have he : resp0 = resp := by injection h1
      subst he
      cases fl
      · simp [SendHeartbeat, h2]
      · cases s with
        | none => simp [SendHeartbeat, h2]
        | some resp2 =>
          by_cases hid : resp2.request_id = requestId
          · simp [SendHeartbeat, h2, hid]
          · simp [SendHeartbeat, h2, hid]
  · intro requestId reqs t
    obtain ⟨f, fl, s⟩ := t
    cases f with
    | none => simp [FetchPipelineConfig]
    | some resp =>
      by_cases hid : resp.request_id = requestId
      · simp [FetchPipelineConfig, hid]
      · simp [FetchPipelineConfig, hid]

/-- C3 witness: the amended theorem instantiated at a 401 first response with
a failing refresh (heartbeat aborts after one flush) and at a fetch transport,
which performs no flush. -/
theorem c3_amended_auth_retry_heartbeat_only_witness :
    SendHeartbeat "x" ⟨some ⟨401, "x", []⟩, false, none⟩
      = ([], [Action.sign, Action.send, Action.flush])
    ∧ (FetchPipelineConfig "x" [] ⟨some ⟨401, "x", []⟩, false, none⟩).2.count Action.flush = 0 :=
  ⟨(c3_amended_auth_retry_heartbeat_only.1 "x" ⟨some ⟨401, "x", []⟩, false, none⟩
      ⟨401, "x", []⟩ rfl rfl).2.1 rfl,
   (c3_amended_auth_retry_heartbeat_only.2 "x" [] ⟨some ⟨401, "x", []⟩, false, none⟩).1⟩

/-- C4 counterexample: a heartbeat result list whose single entry has status
UNCHANGED.  The claim says no fetch happens (no non-UNCHANGED result) and that
UNCHANGED names are never requested; the code nevertheless performs the fetch
(the guard is only size > 0) and puts the UNCHANGED name into the request. -/
theorem c4_fetch_unchanged_counterexample :
    fetchPerformed [⟨"a", CheckStatus.UNCHANGED, 1, 1⟩] = true
    ∧ (∀ r ∈ ([⟨"a", CheckStatus.UNCHANGED, 1, 1⟩] : List ConfigCheckResult),
         r.check_status = CheckStatus.UNCHANGED)
    ∧ ("a", (1 : Int)) ∈ fetchRequestedConfigs [⟨"a", CheckStatus.UNCHANGED, 1, 1⟩] := by decide

/-- C4 (amended): the fetch is performed iff the heartbeat returned at least
one result of ANY status, and the fetch batch-requests (name, new_version)
for exactly the results whose status is not DELETED — NEW, MODIFIED and
UNCHANGED alike. -/
theorem c4_amended_fetch_condition_and_request_set :
    (∀ rs : List ConfigCheckResult, fetchPerformed rs = true ↔ rs ≠ [])
    ∧ (∀ (rs : List ConfigCheckResult) (p : String × Int),
         p ∈ fetchRequestedConfigs rs ↔
           ∃ r, r ∈ rs ∧ r.check_status ≠ CheckStatus.DELETED
             ∧ p = (r.name, r.new_version)) := by
  constructor
  · intro rs
    simp [fetchPerformed, List.length_pos]
  · intro rs p
    simp only [fetchRequestedConfigs, List.mem_map, List.mem_filter, bne_iff_ne]
    constructor
    · rintro ⟨r, ⟨hmem, hst⟩, hp⟩
      exact ⟨r, hmem, hst, hp.symm⟩
    · rintro ⟨r, hmem, hst, hp⟩
      exact ⟨r, ⟨hmem, hst⟩, hp.symm⟩

/-- C4 witness: the amended characterization instantiated at the singleton
UNCHANGED result list of the counterexample. -/
theorem c4_amended_fetch_condition_and_request_set_witness :
    (fetchPerformed [⟨"a", CheckStatus.UNCHANGED, 1, 1⟩] = true ↔
        ([⟨"a", CheckStatus.UNCHANGED, 1, 1⟩] : List ConfigCheckResult) ≠ [])
    ∧ (("a", (1 : Int)) ∈ fetchRequestedConfigs [⟨"a", CheckStatus.UNCHANGED, 1, 1⟩] ↔
        ∃ r, r ∈ ([⟨"a", CheckStatus.UNCHANGED, 1, 1⟩] : List ConfigCheckResult)
          ∧ r.check_status ≠ CheckStatus.DELETED
          ∧ ("a", (1 : Int)) = (r.name, r.new_version)) :=
  ⟨c4_amended_fetch_condition_and_request_set.1 [⟨"a", CheckStatus.UNCHANGED, 1, 1⟩],
   c4_amended_fetch_condition_and_request_set.2 [⟨"a", CheckStatus.UNCHANGED, 1, 1⟩]
     ("a", (1 : Int))⟩

/-- C5: whenever the request_id of the received response differs from the
caller-generated one, the whole response is discarded and the empty result is
returned — in the heartbeat's direct path, in the heartbeat's post-auth-retry
path, and in the fetch.  (The embedded SendHeartbeat / FetchPipelineConfig
perform no file operation and mutate no manager state: their only output is
the returned result.) -/
theorem c5_request_id_mismatch_discards_response :
    (∀ (requestId : String) (t : HeartbeatTransport) (resp : HeartBeatResponse),
       t.first = some resp → isAuthFailureStatus resp.statusCode = false →
       resp.request_id ≠ requestId → (SendHeartbeat requestId t).1 = [])
    ∧ (∀ (requestId : String) (t : HeartbeatTransport) (resp resp2 : HeartBeatResponse),
       t.first = some resp → isAuthFailureStatus resp.statusCode = true →
       t.flushOk = true → t.second = some resp2 → resp2.request_id ≠ requestId →
       (SendHeartbeat requestId t).1 = [])
    ∧ (∀ (requestId : String) (reqs : List ConfigCheckResult) (t : FetchTransport)
         (resp : FetchPipelineConfigResponse),
       t.first = some resp → resp.request_id ≠ requestId →
       (FetchPipelineConfig requestId reqs t).1 = []) := by
  refine ⟨?_, ?_, ?_⟩
  · intro requestId t resp h1 h2 h3
    obtain ⟨f, fl, s⟩ := t
    cases f with
    | none => exact absurd h1 (by simp)
    | some resp0 =>
      have he : resp0 = resp := by injection h1
      subst he
      simp [SendHeartbeat, h2, h3]
  · intro requestId t resp resp2 h1 h2 hfl hs h3
    obtain ⟨f, fl, s⟩ := t
    cases f with
    | none => exact absurd h1 (by simp)
    | some resp0 =>
      have he : resp0 = resp := by injection h1
      subst he
      subst hfl
      simp at hs
      subst hs
      simp [SendHeartbeat, h2, h3]
  · intro requestId reqs t resp h1 h2
    obtain ⟨f, fl, s⟩ := t
    cases f with
    | none => exact absurd h1 (by simp)
    | some resp0 =>
      have he : resp0 = resp := by injection h1
      subst he
      simp [FetchPipelineConfig, h2]

/-- C5 witness: the theorem instantiated on responses carrying non-empty
payloads but a wrong request_id ("y" or "z" against request "x"): all three
paths return the empty result. -/
theorem c5_request_id_mismatch_discards_response_witness :
    (SendHeartbeat "x" ⟨some ⟨200, "y", [⟨"a", CheckStatus.NEW, 0, 1⟩]⟩, false, none⟩).1 = []
    ∧ (SendHeartbeat "x"
        ⟨some ⟨401, "y", []⟩, true, some ⟨200, "z", [⟨"a", CheckStatus.NEW, 0, 1⟩]⟩⟩).1 = []
    ∧ (FetchPipelineConfig "x" [] ⟨some ⟨200, "y", [⟨"a", "da"⟩]⟩, false, none⟩).1 = [] :=
  ⟨c5_request_id_mismatch_discards_response.1 "x"
      ⟨some ⟨200, "y", [⟨"a", CheckStatus.NEW, 0, 1⟩]⟩, false, none⟩
      ⟨200, "y", [⟨"a", CheckStatus.NEW, 0, 1⟩]⟩ rfl rfl (by decide),
   c5_request_id_mismatch_discards_response.2.1 "x"
      ⟨some ⟨401, "y", []⟩, true, some ⟨200, "z", [⟨"a", CheckStatus.NEW, 0, 1⟩]⟩⟩
      ⟨401, "y", []⟩ ⟨200, "z", [⟨"a", CheckStatus.NEW, 0, 1⟩]⟩ rfl rfl rfl rfl (by decide),
   c5_request_id_mismatch_discards_response.2.2 "x" []
      ⟨some ⟨200, "y", [⟨"a", "da"⟩]⟩, false, none⟩ ⟨200, "y", [⟨"a", "da"⟩]⟩ rfl (by decide)⟩

/-- C6: one cycle of the producer loop publishes a batch (calls
StartUpdateConfig, flag true) only when it observed IsUpdate() false, i.e.
state NORMAL; when an earlier batch is still pending (state UPDATE_CONFIG) the
cycle neither publishes nor changes the state, so the pending batch is never
overwritten. -/
theorem c6_publish_only_after_observing_normal (s : CheckUpdateStat) (u : Bool) :
    ((checkUpdateCycle s u).2 = true → s = CheckUpdateStat.NORMAL)
    ∧ (s = CheckUpdateStat.UPDATE_CONFIG →
        checkUpdateCycle s u = (CheckUpdateStat.UPDATE_CONFIG, false)) := by
  cases s <;> cases u <;> simp [checkUpdateCycle, IsUpdate, StartUpdateConfig]

/-- C6 witness: with a batch pending and a local update available, the cycle
still publishes nothing and leaves the state untouched. -/
theorem c6_publish_only_after_observing_normal_witness :
    checkUpdateCycle CheckUpdateStat.UPDATE_CONFIG true
      = (CheckUpdateStat.UPDATE_CONFIG, false) :=
  (c6_publish_only_after_observing_normal CheckUpdateStat.UPDATE_CONFIG true).2 rfl

/-- C7: UpdateAccessKey called within request_access_key_interval seconds of
the account's stored lastUpdateTime returns false and leaves lastUpdateTime
unchanged; outside the interval it refreshes, stamps lastUpdateTime with the
current time, and returns true — so lastUpdateTime never decreases (given a
non-negative configured interval). -/
theorem c7_update_access_key_rate_limit (now last interval : Int) (hI : 0 ≤ interval) :
    (now - last < interval → UpdateAccessKey now last interval = (false, last))
    ∧ (interval ≤ now - last →
        UpdateAccessKey now last interval = (true, now) ∧ last ≤ now) := by
  constructor
  · intro h
    simp [UpdateAccessKey, h]
  · intro h
    have h2 : ¬ now - last < interval := not_lt.mpr h
    refine ⟨by simp [UpdateAccessKey, h2, SetUserAK], by omega⟩

/-- C7 witness: with interval 10, a call 5 seconds after the stored time is
refused and leaves the time at 95; a call 105 seconds after refreshes and
moves the time forward to 200. -/
theorem c7_update_access_key_rate_limit_witness :
    UpdateAccessKey 100 95 10 = (false, 95)
    ∧ (UpdateAccessKey 200 95 10 = (true, 200) ∧ (95 : Int) ≤ 200) :=
  ⟨(c7_update_access_key_rate_limit 100 95 10 (by decide)).1 (by decide),
   (c7_update_access_key_rate_limit 200 95 10 (by decide)).2 (by decide)⟩

/-- C8: applying a DELETED check result a second time in succession is a
no-op: the trace is a single remove of the old version file, the remove of an
absent file is ignored (no error is modelled because the source discards the
return value of remove), and the directory state is unchanged by the second
application. -/
theorem c8_deleted_apply_idempotent (dir : String) (details : List ConfigDetail)
    (fs : FileSys) (r : ConfigCheckResult) (h : r.check_status = CheckStatus.DELETED) :
    runOps (runOps fs (UpdateRemoteConfig dir [r] details)) (UpdateRemoteConfig dir [r] details)
      = runOps fs (UpdateRemoteConfig dir [r] details) := by
  have htrace : UpdateRemoteConfig dir [r] details = [FileOp.remove (oldConfigPath dir r)] := by
    simp [UpdateRemoteConfig, updateRemoteConfigLoop, checkResultOps, h]
  rw [htrace]
  simp [runOps, runOp, fsRemove, List.filter_filter]

/-- C8 witness: deleting config "a" at old version 1 twice, starting from a
directory holding a@1.yaml, ends in the same state as deleting it once. -/
theorem c8_deleted_apply_idempotent_witness :
    runOps (runOps [("a@1.yaml", "old")]
        (UpdateRemoteConfig "" [⟨"a", CheckStatus.DELETED, 1, 0⟩] []))
        (UpdateRemoteConfig "" [⟨"a", CheckStatus.DELETED, 1, 0⟩] [])
      = runOps [("a@1.yaml", "old")]
          (UpdateRemoteConfig "" [⟨"a", CheckStatus.DELETED, 1, 0⟩] []) :=
  c8_deleted_apply_idempotent "" [] [("a@1.yaml", "old")] ⟨"a", CheckStatus.DELETED, 1, 0⟩ rfl

/-- C9: failing input for the stale-detail slip.  The heartbeat reports NEW
for "a" and for "b", but the fetch response only contains an entry for "a"
(detail "da").  Because the configDetail variable is declared outside the
loop, the iteration for "b" reuses the previous iteration's value and writes
"a"'s detail into b@1.yaml, although no fetch entry named "b" exists. -/
theorem c9_stale_detail_written_at_failing_input :
    UpdateRemoteConfig "" [⟨"a", CheckStatus.NEW, 0, 1⟩, ⟨"b", CheckStatus.NEW, 0, 1⟩]
        [⟨"a", "da"⟩]
      = [FileOp.write "a@1.yaml" "da", FileOp.write "b@1.yaml" "da"]
    ∧ (runOps []
        (UpdateRemoteConfig "" [⟨"a", CheckStatus.NEW, 0, 1⟩, ⟨"b", CheckStatus.NEW, 0, 1⟩]
          [⟨"a", "da"⟩])).lookup "b@1.yaml" = some "da"
    ∧ (∀ d ∈ ([⟨"a", "da"⟩] : List ConfigDetail), d.name ≠ "b") := by decide

/-- C10: for any well-formed DoubleBuffer state (index 0 or 1, as established
by the constructor and preserved by swap), getWriteBuffer and getReadBuffer
address distinct slots; swap exchanges which slot each returns; and two
consecutive swaps restore the original state (swap is an involution). -/
theorem c10_double_buffer_distinct_and_swap_involution {T : Type} (b : DoubleBuffer T)
    (h : b.wf) :
    b.writeIndex ≠ b.readIndex
    ∧ b.swap.writeIndex = b.readIndex
    ∧ b.swap.readIndex = b.writeIndex
    ∧ b.swap.swap = b
    ∧ b.swap.getWriteBuffer = b.getReadBuffer
    ∧ b.swap.getReadBuffer = b.getWriteBuffer
    ∧ b.swap.wf := by
  obtain ⟨bufs, c⟩ := b
  simp only [DoubleBuffer.wf] at h
  refine ⟨?_, ?_, ?_, ?_, ?_, ?_, ?_⟩ <;>
    simp [DoubleBuffer.swap, DoubleBuffer.writeIndex, DoubleBuffer.readIndex,
      DoubleBuffer.getWriteBuffer, DoubleBuffer.getReadBuffer, DoubleBuffer.wf] <;>
    omega

/-- C10 witness: the default-constructed buffer has distinct write and read
slots, and swapping twice restores it. -/
theorem c10_double_buffer_distinct_and_swap_involution_witness :
    (DoubleBuffer.mkDefault (fun _ => (0 : Nat))).writeIndex
        ≠ (DoubleBuffer.mkDefault (fun _ => (0 : Nat))).readIndex
    ∧ (DoubleBuffer.mkDefault (fun _ => (0 : Nat))).swap.swap
        = DoubleBuffer.mkDefault (fun _ => (0 : Nat)) :=
  ⟨(c10_double_buffer_distinct_and_swap_involution
      (DoubleBuffer.mkDefault (fun _ => (0 : Nat))) (Or.inl rfl)).1,
   (c10_double_buffer_distinct_and_swap_involution
      (DoubleBuffer.mkDefault (fun _ => (0 : Nat))) (Or.inl rfl)).2.2.2.1⟩

end Ilogtail
